import Mathlib

/-!
Shallow embedding of `use-list-transform` (`src/useListTransform.ts`).

The hook runs an ordered pipeline of transform stages over a source list each
time the source list or the transform data changes.  We embed:

* the reducer `transformReducer` as a pure transition function over the six
  actions of the state container;
* one pipeline run (`transformList`) as a function producing the ordered trace
  of callback invocations and reducer dispatches.  Runs are identified by a
  monotone counter (`transformListId`); a run can only observe the counter
  move while it is suspended at an `await`, so the semantics threads the
  counter value explicitly and consumes, at each await point, the next value
  of an environment list `env` (the value of `transformListId.current` when
  the awaited promise settles).

JavaScript dynamic values are embedded honestly: a stage's immediate return
value can be an array, a function (predicate), or a promise, and a promise may
resolve to an array or to a function; the working "list" is therefore a `Val`
(array or function), exactly as the untyped runtime permits.
-/

namespace UseListTransform

/-- Errors observable from a run: a `TypeError` raised by the runtime (calling
`undefined`, or calling `.filter` on a non-array), or an error thrown or
rejected by caller code. -/
inductive Err where
  | typeError : Err
  | userError : String → Err
deriving DecidableEq, Repr

/-- A JavaScript value that can sit in the `transformedList` variable: an
array of items, or (after a promise resolved to a function) a function. -/
inductive Val (α : Type) where
  | arr (l : List α)
  | fn (p : α → Bool)

/-- A JavaScript object used as transform data: an association list of string
keys; lookup takes the first binding, so spreading puts the winning keys in
front. -/
abbrev JsObj (V : Type) := List (String × V)

/-- Property lookup on an embedded object (first binding wins). -/
def jsGet {V : Type} : JsObj V → String → Option V
  | [], _ => none
  | (k', v) :: rest, k => if k' = k then some v else jsGet rest k

/-- Whether the object has the key. -/
def jsHasKey {V : Type} (o : JsObj V) (k : String) : Bool :=
  (jsGet o k).isSome

/-- The object spread `\x7b ...base, ...upd \x7d`: keys of `upd` win, keys only
in `base` are preserved.  Under first-binding lookup this is `upd ++ base`. -/
def jsSpread {V : Type} (base upd : JsObj V) : JsObj V :=
  upd ++ base

/-- The argument object passed to every stage:
`\x7b list: transformedList, data: state.data, previousData: prevTransformData \x7d`. -/
structure TransformerParams (α V : Type) where
  list : Val α
  data : JsObj V
  previousData : Option (JsObj V)

/-- How an awaited promise settles. -/
inductive PromiseOutcome (α : Type) where
  | resolved (v : Val α)
  | rejected (e : Err)

/-- The immediate result of invoking a stage: a plain array, a function
(predicate), a promise, or a synchronous throw. -/
inductive StageReturn (α : Type) where
  | arr (l : List α)
  | func (p : α → Bool)
  | prom (o : PromiseOutcome α)
  | thrown (e : Err)

/-- An element of the `transforms` array: a callable stage, or `undefined`
(which is what `toArray(options.transform)` produces when the `transform`
option is omitted). -/
inductive StageVal (α V : Type) where
  | fn (f : TransformerParams α V → StageReturn α)
  | undef

/-- The runtime shape of `options.transform`: an array (then `Array.isArray`
is true), or a non-array scalar — a single transformer, or `undefined` when
the option is omitted. -/
inductive TransformOption (α V : Type) where
  | arr (ss : List (StageVal α V))
  | scalar (s : StageVal α V)

/-- `toArray`: `Array.isArray(value) ? value : [value]`. -/
def toArray {α V : Type} : TransformOption α V → List (StageVal α V)
  | .arr ss => ss
  | .scalar s => [s]

/-- The six reducer actions. -/
inductive Action (α V : Type) where
  | setList (payload : Val α)
  | setData (payload : JsObj V)
  | updateData (payload : JsObj V)
  | resetData (payload : Option (JsObj V))
  | setLoading (payload : Bool)
  | setError (payload : Err)

/-- The reducer state `\x7b data, list, loading, error \x7d`.  `list` is
`Option` because `SET_ERROR` assigns `null` to it; `data` is `Option` because
transform data may never have been set. -/
structure TransformState (α V : Type) where
  data : Option (JsObj V)
  list : Option (Val α)
  loading : Bool
  error : Option Err

/-- `transformReducer`, the pure transition function of the state container. -/
def transformReducer {α V : Type} (state : TransformState α V) :
    Action α V → TransformState α V
  | .setList payload => { state with list := some payload, loading := false }
  | .setData payload => { state with data := some payload }
  | .updateData payload =>
      { state with data := some (jsSpread (state.data.getD []) payload) }
  | .resetData payload => { state with data := payload }
  | .setLoading payload => { state with loading := payload, error := none }
  | .setError payload =>
      { state with error := some payload, list := none, loading := false }

/-- One observable event of a run: a callback invocation or a dispatch into
the reducer. -/
inductive Event (α V : Type) where
  | onLoading (b : Bool)
  | onError (e : Err)
  | onListUpdate (v : Val α)
  | dispatch (a : Action α V)

/-- `isLatestTransform`: compares a run id against the tracker's current
value. -/
def isLatestTransform (trackerCurrent listId : Nat) : Bool :=
  trackerCurrent == listId

/-- `setList(payload, transId)` as the trace of events it emits when the
tracker currently holds `trackerCurrent`: nothing when stale, otherwise
`onLoading(false)`, `onListUpdate(payload)`, `dispatch(SET_LIST)`. -/
def setList {α V : Type} (trackerCurrent : Nat) (payload : Val α)
    (transId : Nat) : List (Event α V) :=
  if !(isLatestTransform trackerCurrent transId) then []
  else
    [Event.onLoading false, Event.onListUpdate payload,
     Event.dispatch (Action.setList payload)]

/-- `setLoading(payload)`: `onLoading(payload)` then `dispatch(SET_LOADING)`,
with no staleness guard. -/
def setLoading {α V : Type} (payload : Bool) : List (Event α V) :=
  [Event.onLoading payload, Event.dispatch (Action.setLoading payload)]

/-- `setError(payload, transId)`: `onError(payload)` unconditionally, then
`dispatch(SET_ERROR)` only when the run is still current. -/
def setError {α V : Type} (trackerCurrent : Nat) (payload : Err)
    (transId : Nat) : List (Event α V) :=
  Event.onError payload ::
    (if !(isLatestTransform trackerCurrent transId) then []
     else [Event.dispatch (Action.setError payload)])

/-- How a run ended: committing a working value, aborting at a staleness
check, or failing at a stage. -/
inductive RunOutcome (α : Type) where
  | committed (v : Val α)
  | aborted
  | failed (e : Err)

/-- The result of one `transformList` run: its ordered event trace, how it
ended, and the tracker value when it ended. -/
structure RunResult (α V : Type) where
  events : List (Event α V)
  outcome : RunOutcome α
  tracker : Nat

/-- Invoking an element of the `transforms` array; invoking `undefined`
throws a `TypeError`. -/
def invokeStage {α V : Type} (s : StageVal α V) (p : TransformerParams α V) :
    StageReturn α :=
  match s with
  | .fn f => f p
  | .undef => .thrown .typeError

/-- `transformedList.filter(result)`: filters when the working value is an
array; calling `.filter` on a function raises a `TypeError` (caught by the
surrounding `try`). -/
def jsFilter {α : Type} (v : Val α) (p : α → Bool) : Except Err (Val α) :=
  match v with
  | .arr l => .ok (.arr (l.filter p))
  | .fn _ => .error .typeError

/-- The stage loop of `transformList`.  `runId` is the id taken by this run
(`currentTransformId`); `tracker` is the current value of
`transformListId.current`, which can only move while the run is suspended at
an `await`, so each await consumes the next reading from `env`.  The loop
checks staleness at the top of each iteration, invokes the stage inside a
`try`, awaits promise results, filters by function results, replaces the
working value by array results, and either fails through `setError` or, after
the last stage, commits through `setList`. -/
def runLoop {α V : Type} (runId : Nat) (d : JsObj V)
    (prev : Option (JsObj V)) :
    List (StageVal α V) → Nat → List Nat → Val α → RunResult α V
  | [], tracker, _env, transformedList =>
      ⟨setList tracker transformedList runId, .committed transformedList,
       tracker⟩
  | stage :: rest, tracker, env, transformedList =>
      if !(isLatestTransform tracker runId) then ⟨[], .aborted, tracker⟩
      else
        match invokeStage stage ⟨transformedList, d, prev⟩ with
        | .thrown e => ⟨setError tracker e runId, .failed e, tracker⟩
        | .prom (.rejected e) =>
            ⟨setError (env.headD tracker) e runId, .failed e,
             env.headD tracker⟩
        | .prom (.resolved v) =>
            runLoop runId d prev rest (env.headD tracker) env.tail v
        | .func p =>
            match jsFilter transformedList p with
            | .ok v' => runLoop runId d prev rest tracker env v'
            | .error e => ⟨setError tracker e runId, .failed e, tracker⟩
        | .arr l => runLoop runId d prev rest tracker env (.arr l)

/-- One `transformList()` run.  The run increments the tracker and takes the
new value as its id, so at entry `tracker = runId`; it signals loading, and if
`state.data == null` it commits the source list unchanged (no stage executes),
otherwise it copies the source list and enters the stage loop. -/
def transformList {α V : Type} (runId : Nat) (optionsList : List α)
    (data prev : Option (JsObj V)) (stages : List (StageVal α V))
    (env : List Nat) : RunResult α V :=
  match data with
  | none =>
      ⟨setLoading true ++ setList runId (.arr optionsList) runId,
       .committed (.arr optionsList), runId⟩
  | some d =>
      let r := runLoop runId d prev stages runId env (.arr optionsList)
      ⟨setLoading true ++ r.events, r.outcome, r.tracker⟩

/-- Applying a trace to the state container: dispatch events go through the
reducer, callback events leave the state unchanged. -/
def applyEvent {α V : Type} (s : TransformState α V) :
    Event α V → TransformState α V
  | .dispatch a => transformReducer s a
  | _ => s

/-- Fold a whole trace into the state container. -/
def applyEvents {α V : Type} (s : TransformState α V)
    (evs : List (Event α V)) : TransformState α V :=
  evs.foldl applyEvent s

/-- Number of `onLoading b` invocations in a trace. -/
def countOnLoading {α V : Type} (b : Bool) : List (Event α V) → Nat
  | [] => 0
  | Event.onLoading b' :: rest =>
      (if b' = b then 1 else 0) + countOnLoading b rest
  | _ :: rest => countOnLoading b rest

/-- Number of `onError e` invocations in a trace. -/
def countOnError {α V : Type} (e : Err) : List (Event α V) → Nat
  | [] => 0
  | Event.onError e' :: rest =>
      (if e' = e then 1 else 0) + countOnError e rest
  | _ :: rest => countOnError e rest

/-- The terminal events a finished run contributes after its initial
`setLoading(true)`: a commit goes through `setList`, a failure through
`setError`, an abort emits nothing. -/
def terminalEvents {α V : Type} (runId : Nat) (r : RunResult α V) :
    List (Event α V) :=
  match r.outcome with
  | .committed v => setList r.tracker v runId
  | .aborted => []
  | .failed e => setError r.tracker e runId

/-- Whether the run committed a value while still current, i.e. its `setList`
dispatch was applied. -/
def appliedCommit {α V : Type} (runId : Nat) (r : RunResult α V) : Bool :=
  match r.outcome with
  | .committed _ => r.tracker == runId
  | _ => false

/-- The initial reducer state
`\x7b data: options.transformData, list: options.list, loading: false, error: undefined \x7d`. -/
def initialState {α V : Type} (optionsList : List α)
    (optionsTransformData : Option (JsObj V)) : TransformState α V :=
  ⟨optionsTransformData, some (.arr optionsList), false, none⟩

/-- `setData` from the mutation API: dispatches `SET_DATA`. -/
def setTransform {α V : Type} (d : JsObj V) : Action α V :=
  .setData d

/-- `updateData` from the mutation API: dispatches `UPDATE_DATA`. -/
def updateTransform {α V : Type} (p : JsObj V) : Action α V :=
  .updateData p

/-- `resetData` from the mutation API: dispatches `RESET_DATA` carrying
`options.transformData`. -/
def resetTransform {α V : Type} (optionsTransformData : Option (JsObj V)) :
    Action α V :=
  .resetData optionsTransformData

/-- A call to the mutation API surface. -/
inductive MutCall (V : Type) where
  | setData (d : JsObj V)
  | updateData (p : JsObj V)
  | resetData

/-- The action a mutation-API call dispatches, given the configured
`options.transformData`. -/
def mutDispatch {α V : Type} (optionsTransformData : Option (JsObj V)) :
    MutCall V → Action α V
  | .setData d => setTransform d
  | .updateData p => updateTransform p
  | .resetData => resetTransform optionsTransformData

/-! ### Concrete stages used to exercise the semantics -/

/-- A concrete asynchronous stage resolving to the empty list. -/
def asyncNilStage : StageVal Nat Nat :=
  StageVal.fn (fun _ => StageReturn.prom (PromiseOutcome.resolved
    (Val.arr [])))

/-- A concrete asynchronous stage whose promise rejects. -/
def asyncRejectStage : StageVal Nat Nat :=
  StageVal.fn (fun _ => StageReturn.prom (PromiseOutcome.rejected
    (Err.userError "boom")))

/-- A concrete stage that throws synchronously. -/
def throwStage : StageVal Nat Nat :=
  StageVal.fn (fun _ => StageReturn.thrown (Err.userError "boom"))

/-- A concrete predicate keeping the item `1`. -/
def isOne : Nat → Bool :=
  fun n => n == 1

/-- A concrete stage returning the predicate `isOne` synchronously. -/
def predStage : StageVal Nat Nat :=
  StageVal.fn (fun _ => StageReturn.func isOne)

/-- A concrete stage returning a fresh list synchronously. -/
def arrStage : StageVal Nat Nat :=
  StageVal.fn (fun _ => StageReturn.arr [9])

/-- A concrete predicate rejecting everything. -/
def rejectAllPred : Nat → Bool :=
  fun _ => false

/-- A concrete asynchronous stage whose promise resolves to a function
value. -/
def asyncPredStage : StageVal Nat Nat :=
  StageVal.fn (fun _ => StageReturn.prom (PromiseOutcome.resolved
    (Val.fn rejectAllPred)))

/-! ### Structural lemmas about run traces -/

/-- The stage loop emits no events until its terminal step: its whole trace is
exactly the terminal `setList` / `setError` trace (or nothing on abort),
evaluated at the tracker value the run ended with. -/
theorem runLoop_events {α V : Type} (runId : Nat) (d : JsObj V)
    (prev : Option (JsObj V)) :
    ∀ (stages : List (StageVal α V)) (tracker : Nat) (env : List Nat)
      (w : Val α),
    (runLoop runId d prev stages tracker env w).events =
      terminalEvents runId (runLoop runId d prev stages tracker env w) := by
  intro stages
  induction stages with
  | nil => intro tracker env w; rfl
  | cons stage rest ih =>
      intro tracker env w
      unfold runLoop
      split
      · rfl
      · split
        · rfl
        · rfl
        · exact ih _ _ _
        · split
          · exact ih _ _ _
          · rfl
        · exact ih _ _ _

/-- A run's trace is its `setLoading(true)` start followed by its terminal
events. -/
theorem transformList_events {α V : Type} (runId : Nat) (optionsList : List α)
    (data prev : Option (JsObj V)) (stages : List (StageVal α V))
    (env : List Nat) :
    (transformList runId optionsList data prev stages env).events =
      setLoading true ++
        terminalEvents runId
          (transformList runId optionsList data prev stages env) := by
  cases data with
  | none => rfl
  | some d =>
      show setLoading true ++ _ = _
      rw [runLoop_events]
      rfl

/-- Lookup in a spread object: keys of the update win, the base fills in the
rest. -/
theorem jsGet_spread {V : Type} (base upd : JsObj V) (k : String) :
    jsGet (jsSpread base upd) k =
      if jsHasKey upd k then jsGet upd k else jsGet base k := by
  induction upd with
  | nil => simp [jsSpread, jsGet, jsHasKey]
  | cons kv rest ih =>
      obtain ⟨k', v⟩ := kv
      by_cases h : k' = k
      · simp [jsSpread, jsGet, jsHasKey, h]
      · simpa [jsSpread, jsGet, jsHasKey, h] using ih

/-- `countOnLoading` distributes over trace concatenation. -/
theorem countOnLoading_append {α V : Type} (b : Bool)
    (l1 l2 : List (Event α V)) :
    countOnLoading b (l1 ++ l2) =
      countOnLoading b l1 + countOnLoading b l2 := by
  induction l1 with
  | nil => simp [countOnLoading]
  | cons ev rest ih =>
      cases ev <;> simp [countOnLoading, ih, Nat.add_assoc]

/-- Only a still-current run's terminal events can carry a `SET_LIST`
dispatch. -/
theorem tracker_of_setList_dispatch_mem {α V : Type} (runId : Nat)
    (r : RunResult α V) (v : Val α)
    (h : Event.dispatch (Action.setList v) ∈ terminalEvents runId r) :
    r.tracker = runId := by
  rcases r with ⟨evs, outcome, tracker⟩
  cases outcome with
  | committed w =>
      by_cases hb : tracker = runId
      · exact hb
      · simp [terminalEvents, setList, isLatestTransform, hb] at h
  | aborted => simp [terminalEvents] at h
  | failed e =>
      by_cases hb : tracker = runId
      · exact hb
      · simp [terminalEvents, setError, isLatestTransform, hb] at h

/-! ### Claims -/

/-- Claim C8: the `SET_LOADING` transition sets the loading flag to the
payload and clears any existing error, and the clearing happens for every
payload — in particular also when the payload is `false`. -/
theorem C8_setLoading_sets_flag_and_clears_error {α V : Type}
    (s : TransformState α V) (b : Bool) :
    (transformReducer s (Action.setLoading b)).loading = b ∧
      (transformReducer s (Action.setLoading b)).error = none :=
  ⟨rfl, rfl⟩

/-- Claim C5: `updateData(part)` makes the new transform data the shallow
merge of the prior data and the update: keys present in the update win, all
other keys keep their prior values. -/
theorem C5_updateData_shallow_merge {α V : Type} (s : TransformState α V)
    (part : JsObj V) :
    (transformReducer s (Action.updateData part)).data =
        some (jsSpread (s.data.getD []) part) ∧
      ∀ k : String,
        jsGet (jsSpread (s.data.getD []) part) k =
          if jsHasKey part k then jsGet part k
          else jsGet (s.data.getD []) k :=
  ⟨rfl, fun k => jsGet_spread _ _ k⟩

/-- Claim C4: after any sequence of mutation-API calls, a `resetData()` call
restores the transform data to exactly the initially configured
`options.transformData`, not any intermediate value and not an item passed to
`setData`. -/
theorem C4_resetData_restores_initial {α V : Type} (optionsList : List α)
    (cfg : Option (JsObj V)) (calls : List (MutCall V)) :
    (transformReducer
        (calls.foldl (fun s c => transformReducer s (mutDispatch cfg c))
          (initialState (α := α) optionsList cfg))
        (mutDispatch cfg MutCall.resetData)).data = cfg :=
  rfl

/-- Claim C6: when transform data is absent, a run commits the unmodified
source list under its run identifier: the result does not depend on the
pipeline (no stage executes), the outcome is a commit of the source list, and
the trace is exactly the loading signal followed by the applied `setList`
commit. -/
theorem C6_absent_data_commits_source_list {α V : Type} (runId : Nat)
    (ls : List α) (prev : Option (JsObj V)) (stages : List (StageVal α V))
    (env : List Nat) :
    transformList runId ls none prev stages env =
        transformList (α := α) (V := V) runId ls none prev [] [] ∧
      (transformList runId ls none prev stages env).outcome =
        RunOutcome.committed (Val.arr ls) ∧
      (transformList runId ls none prev stages env).events =
        [Event.onLoading true, Event.dispatch (Action.setLoading true),
         Event.onLoading false, Event.onListUpdate (Val.arr ls),
         Event.dispatch (Action.setList (Val.arr ls))] := by
  refine ⟨rfl, rfl, ?_⟩
  simp [transformList, setLoading, setList, isLatestTransform]

/-- Claim C10: when the `transform` option is omitted while transform data is
present, `toArray` turns the option into the one-element array containing
`undefined`; invoking that element throws, so the run fails with a
`TypeError` and commits the error (it does not behave as an empty pipeline
returning the source list). -/
theorem C10_omitted_transform_with_data_errors {α V : Type} (runId : Nat)
    (ls : List α) (d : JsObj V) (prev : Option (JsObj V)) (env : List Nat) :
    toArray (TransformOption.scalar (StageVal.undef (α := α) (V := V))) =
        [StageVal.undef] ∧
      (transformList runId ls (some d) prev
          (toArray (TransformOption.scalar StageVal.undef)) env).outcome =
        RunOutcome.failed Err.typeError ∧
      Event.dispatch (Action.setError Err.typeError) ∈
        (transformList runId ls (some d) prev
          (toArray (TransformOption.scalar StageVal.undef)) env).events := by
  refine ⟨rfl, ?_, ?_⟩
  · simp [transformList, toArray, runLoop, invokeStage, isLatestTransform]
  · simp [transformList, toArray, runLoop, invokeStage, setError, setLoading,
      isLatestTransform]

/-- Claim C1: a run whose identifier no longer equals the staleness tracker's
current identifier by the time it ends never dispatches a `SET_LIST` commit:
the derived list is only ever written by the run that is still newest at
commit time. -/
theorem C1_superseded_run_never_commits_list {α V : Type} (runId : Nat)
    (ls : List α) (data prev : Option (JsObj V))
    (stages : List (StageVal α V)) (env : List Nat) (v : Val α)
    (s : TransformState α V)
    (h : (transformList runId ls data prev stages env).tracker ≠ runId) :
    Event.dispatch (Action.setList v) ∉
        (transformList runId ls data prev stages env).events ∧
      (applyEvents s
        (transformList runId ls data prev stages env).events).list =
        s.list := by
  constructor
  · intro hmem
    rw [transformList_events] at hmem
    rcases List.mem_append.mp hmem with hpre | hterm
    · simp [setLoading] at hpre
    · exact h (tracker_of_setList_dispatch_mem runId _ v hterm)
  · rw [transformList_events]
    cases houtcome : (transformList runId ls data prev stages env).outcome
      with
    | committed w =>
        simp [terminalEvents, houtcome, setList, setLoading,
          isLatestTransform, h, applyEvents, applyEvent, transformReducer]
    | aborted =>
        simp [terminalEvents, houtcome, setLoading, applyEvents, applyEvent,
          transformReducer]
    | failed e =>
        simp [terminalEvents, houtcome, setError, setLoading,
          isLatestTransform, h, applyEvents, applyEvent, transformReducer]

/-- Witness for C1: a run with one asynchronous stage that is superseded
during its await (the tracker reads `2` after the await, the run id is `1`)
ends stale and its trace contains no `SET_LIST` dispatch. -/
theorem C1_superseded_run_never_commits_list_witness :
    (transformList 1 [0] (some ([] : JsObj Nat)) none [asyncNilStage]
        [2]).tracker ≠ 1 ∧
      (Event.dispatch (Action.setList (Val.arr ([] : List Nat))) ∉
          (transformList 1 [0] (some ([] : JsObj Nat)) none [asyncNilStage]
            [2]).events ∧
        (applyEvents (initialState [0] none)
          (transformList 1 [0] (some ([] : JsObj Nat)) none [asyncNilStage]
            [2]).events).list = (initialState (V := Nat) [0] none).list) :=
  ⟨by decide,
   C1_superseded_run_never_commits_list 1 [0] (some []) none [asyncNilStage]
     [2] (Val.arr []) (initialState [0] none) (by decide)⟩

/-- Claim C2: whenever a run fails at a stage, `onError` is invoked with the
error regardless of whether the run is still current, while the `SET_ERROR`
dispatch (which writes the visible error and clears the derived list) happens
exactly when the failing run's identifier still equals the tracker's current
identifier at the time of failure. -/
theorem C2_onError_fires_dispatch_only_if_current {α V : Type} (runId : Nat)
    (ls : List α) (data prev : Option (JsObj V))
    (stages : List (StageVal α V)) (env : List Nat) (e : Err)
    (h : (transformList runId ls data prev stages env).outcome =
      RunOutcome.failed e) :
    Event.onError e ∈ (transformList runId ls data prev stages env).events ∧
      (Event.dispatch (Action.setError e) ∈
          (transformList runId ls data prev stages env).events ↔
        (transformList runId ls data prev stages env).tracker = runId) := by
  constructor
  · rw [transformList_events]
    simp [terminalEvents, h, setError, setLoading]
  · rw [transformList_events]
    by_cases hb :
        (transformList runId ls data prev stages env).tracker = runId
    · simp [terminalEvents, h, setError, setLoading, isLatestTransform, hb]
    · simp [terminalEvents, h, setError, setLoading, isLatestTransform, hb]

/-- Witness for C2: a run whose only stage rejects after the run has been
superseded (tracker reads `2` during the await, run id `1`) still invokes
`onError`, and its `SET_ERROR` dispatch membership is equivalent to the false
statement that the run is still current. -/
theorem C2_onError_fires_dispatch_only_if_current_witness :
    Event.onError (Err.userError "boom") ∈
        (transformList 1 [0] (some ([] : JsObj Nat)) none [asyncRejectStage]
          [2]).events ∧
      (Event.dispatch (Action.setError (Err.userError "boom")) ∈
          (transformList 1 [0] (some ([] : JsObj Nat)) none [asyncRejectStage]
            [2]).events ↔
        (transformList 1 [0] (some ([] : JsObj Nat)) none [asyncRejectStage]
          [2]).tracker = 1) :=
  C2_onError_fires_dispatch_only_if_current 1 [0] (some []) none
    [asyncRejectStage] [2] (Err.userError "boom") rfl

/-- Claim C7: when a run fails at a stage while still current, applying its
trace to any state sets the error field to that error, sets the derived list
to the absent state, clears the loading flag, and invokes `onError` exactly
once with that error. -/
theorem C7_current_failure_sets_error_state {α V : Type} (runId : Nat)
    (ls : List α) (data prev : Option (JsObj V))
    (stages : List (StageVal α V)) (env : List Nat) (e : Err)
    (s : TransformState α V)
    (hfail : (transformList runId ls data prev stages env).outcome =
      RunOutcome.failed e)
    (hcur : (transformList runId ls data prev stages env).tracker = runId) :
    (applyEvents s (transformList runId ls data prev stages env).events).error
        = some e ∧
      (applyEvents s
        (transformList runId ls data prev stages env).events).list = none ∧
      (applyEvents s
        (transformList runId ls data prev stages env).events).loading
        = false ∧
      countOnError e (transformList runId ls data prev stages env).events
        = 1 := by
  have hev : (transformList runId ls data prev stages env).events =
      [Event.onLoading true, Event.dispatch (Action.setLoading true),
       Event.onError e, Event.dispatch (Action.setError e)] := by
    rw [transformList_events]
    simp [terminalEvents, hfail, setError, setLoading, isLatestTransform,
      hcur]
  rw [hev]
  exact ⟨rfl, rfl, rfl, by simp [countOnError, applyEvents, applyEvent]⟩

/-- Witness for C7: a run whose only stage throws synchronously stays current,
and applying its trace to the initial state yields the thrown error, an
absent list and a cleared loading flag, with `onError` invoked once. -/
theorem C7_current_failure_sets_error_state_witness :
    (applyEvents (initialState [0] none)
        (transformList 1 [0] (some ([] : JsObj Nat)) none [throwStage]
          []).events).error = some (Err.userError "boom") ∧
      (applyEvents (initialState [0] none)
        (transformList 1 [0] (some ([] : JsObj Nat)) none [throwStage]
          []).events).list = none ∧
      (applyEvents (initialState [0] none)
        (transformList 1 [0] (some ([] : JsObj Nat)) none [throwStage]
          []).events).loading = false ∧
      countOnError (Err.userError "boom")
        (transformList 1 [0] (some ([] : JsObj Nat)) none [throwStage]
          []).events = 1 :=
  C7_current_failure_sets_error_state 1 [0] (some []) none [throwStage] []
    (Err.userError "boom") (initialState [0] none) rfl rfl

/-- Counterexample for C9: a run whose stage throws while the run is still
current settles with failure and its `SET_ERROR` outcome is applied, yet
`onLoading` is never invoked with `false` — refuting the claim that
`onLoading(false)` fires once whenever a run settles (success or failure) and
its outcome is applied. -/
theorem C9_counterexample :
    (transformList 1 [0] (some ([] : JsObj Nat)) none [throwStage]
        []).outcome = RunOutcome.failed (Err.userError "boom") ∧
      Event.dispatch (Action.setError (Err.userError "boom")) ∈
        (transformList 1 [0] (some ([] : JsObj Nat)) none [throwStage]
          []).events ∧
      countOnLoading false
        (transformList 1 [0] (some ([] : JsObj Nat)) none [throwStage]
          []).events = 0 := by
  refine ⟨rfl, ?_, rfl⟩
  exact List.Mem.tail _ (List.Mem.tail _ (List.Mem.tail _ (List.Mem.head _)))

/-- Claim C9 (amended): `onLoading` is invoked exactly once with `true` when a
run starts; it is invoked with `false` exactly once when the run commits a
successful result that is applied (still current at commit), and never
otherwise — in particular not for the terminal transition of a superseded
run, and not when a run settles in failure, even an applied failure. -/
theorem C9_amended_onLoading_trace {α V : Type} (runId : Nat) (ls : List α)
    (data prev : Option (JsObj V)) (stages : List (StageVal α V))
    (env : List Nat) :
    countOnLoading true
        (transformList runId ls data prev stages env).events = 1 ∧
      countOnLoading false
          (transformList runId ls data prev stages env).events =
        (if appliedCommit runId (transformList runId ls data prev stages env)
         then 1 else 0) := by
  rw [transformList_events, countOnLoading_append, countOnLoading_append]
  cases houtcome : (transformList runId ls data prev stages env).outcome with
  | committed w =>
      by_cases hb :
          (transformList runId ls data prev stages env).tracker = runId
      · simp [terminalEvents, houtcome, setList, setLoading, appliedCommit,
          isLatestTransform, hb, countOnLoading]
      · simp [terminalEvents, houtcome, setList, setLoading, appliedCommit,
          isLatestTransform, hb, countOnLoading]
  | aborted =>
      simp [terminalEvents, houtcome, setLoading, appliedCommit,
        countOnLoading]
  | failed e =>
      by_cases hb :
          (transformList runId ls data prev stages env).tracker = runId
      · simp [terminalEvents, houtcome, setError, setLoading, appliedCommit,
          isLatestTransform, hb, countOnLoading]
      · simp [terminalEvents, houtcome, setError, setLoading, appliedCommit,
          isLatestTransform, hb, countOnLoading]

/-- Counterexample for C3: a stage whose promise resolves to a function does
not filter the working list — the run commits the function value itself as
the working value, not the previous list filtered by that predicate. -/
theorem C3_counterexample :
    (transformList 1 [0] (some ([] : JsObj Nat)) none [asyncPredStage]
        []).outcome = RunOutcome.committed (Val.fn rejectAllPred) ∧
      (transformList 1 [0] (some ([] : JsObj Nat)) none [asyncPredStage]
        []).outcome ≠
        RunOutcome.committed (Val.arr (List.filter rejectAllPred [0])) := by
  constructor
  · rfl
  · intro h
    have hA : (transformList 1 [0] (some ([] : JsObj Nat)) none
        [asyncPredStage] []).outcome =
        RunOutcome.committed (Val.fn rejectAllPred) := rfl
    rw [hA] at h
    simp at h

/-- Claim C3 (amended): at a stage whose staleness check passes, a
synchronously returned function filters the working list (retaining exactly
the items where the predicate returns true); a synchronously returned list
becomes the working list; a promise result is awaited and its resolved value
becomes the working value directly, with no predicate normalization — so an
asynchronously delivered predicate is not applied as a filter. -/
theorem C3_amended_stage_result_normalization {α V : Type} (runId : Nat)
    (d : JsObj V) (prev : Option (JsObj V)) (stage : StageVal α V)
    (rest : List (StageVal α V)) (env : List Nat) (l : List α) :
    (∀ p : α → Bool,
        invokeStage stage ⟨Val.arr l, d, prev⟩ = StageReturn.func p →
        runLoop runId d prev (stage :: rest) runId env (Val.arr l) =
          runLoop runId d prev rest runId env (Val.arr (l.filter p))) ∧
      (∀ l' : List α,
        invokeStage stage ⟨Val.arr l, d, prev⟩ = StageReturn.arr l' →
        runLoop runId d prev (stage :: rest) runId env (Val.arr l) =
          runLoop runId d prev rest runId env (Val.arr l')) ∧
      (∀ v : Val α,
        invokeStage stage ⟨Val.arr l, d, prev⟩ =
            StageReturn.prom (PromiseOutcome.resolved v) →
        runLoop runId d prev (stage :: rest) runId env (Val.arr l) =
          runLoop runId d prev rest (env.headD runId) env.tail v) := by
  refine ⟨fun p hinv => ?_, fun l' hinv => ?_, fun v hinv => ?_⟩ <;>
    simp [runLoop, isLatestTransform, hinv, jsFilter]

/-- Witness for C3 (amended): concrete stages returning a predicate, a list,
and a promise resolving to a function, each applied at a concrete working
list. -/
theorem C3_amended_stage_result_normalization_witness :
    (runLoop 1 ([] : JsObj Nat) none [predStage] 1 [] (Val.arr [1, 2, 3]) =
        runLoop 1 [] none [] 1 [] (Val.arr [1])) ∧
      (runLoop 1 ([] : JsObj Nat) none [arrStage] 1 [] (Val.arr [1, 2, 3]) =
        runLoop 1 [] none [] 1 [] (Val.arr [9])) ∧
      (runLoop 1 ([] : JsObj Nat) none [asyncPredStage] 1 []
          (Val.arr [1, 2, 3]) =
        runLoop 1 [] none [] 1 [] (Val.fn rejectAllPred)) :=
  ⟨(C3_amended_stage_result_normalization 1 [] none predStage [] []
      [1, 2, 3]).1 isOne rfl,
   (C3_amended_stage_result_normalization 1 [] none arrStage [] []
      [1, 2, 3]).2.1 [9] rfl,
   (C3_amended_stage_result_normalization 1 [] none asyncPredStage [] []
      [1, 2, 3]).2.2 (Val.fn rejectAllPred) rfl⟩

end UseListTransform
